import Mathlib

/-!
Verification of the kritis image-security-policy evaluator and admission
pipeline against its specification.

Sources embedded here:
* the ISP evaluator (`ValidateImageSecurityPolicy`) and the severity ladder —
  the implementation file is absent from the repository snapshot (only its
  tests are present), so these are modelled from the specification
  (sections 4.A and 4.D) and each such definition is marked
  `Modelled from the spec:`;
* the admission pipeline (`ReviewHandler`, `deserializeRequest`,
  `handleDeployment`, `handlePod`, `handleReplicaSet`, `reviewImages`,
  `checkBreakglass`, ...) — embedded from the admission package source;
* the PGP signing-secret fetcher (`Fetch` from pkg/kritis/secrets) —
  embedded from its source, with Go's `base64.StdEncoding.Decode`
  modelled byte-for-byte.

Go machine integers do not occur on any embedded path; byte strings are
modelled as `List Nat` (byte values) and Go strings as Lean `String` or
`List Char` where character-level work is needed.
-/

namespace Kritis

/-! ## Severity ladder (spec section 4.A)

Modelled from the spec: a totally ordered set of severities
`LOW < MEDIUM < HIGH < CRITICAL` with two sentinels, `ALLOW_ALL`
(nothing exceeds it) and `BLOCK_ALL` (every real severity exceeds it). -/

inductive Severity where
  | low
  | medium
  | high
  | critical
  | allowAll
  | blockAll
deriving DecidableEq

/-- Modelled from the spec: rank giving the total order with the sentinels
absorbing at their ends: `BLOCK_ALL` below every real severity, `ALLOW_ALL`
above every real severity. -/
def rank : Severity → Nat
  | Severity.blockAll => 0
  | Severity.low => 1
  | Severity.medium => 2
  | Severity.high => 3
  | Severity.critical => 4
  | Severity.allowAll => 5

/-- Modelled from the spec: `parse` recognizes the four named levels plus the
two sentinels; the empty string is resolved by each component's default
before parsing (the ladder itself does not choose a default), and any other
string is a parse failure. -/
def parseSeverity (s : String) : Option Severity :=
  if s = "LOW" then some Severity.low
  else if s = "MEDIUM" then some Severity.medium
  else if s = "HIGH" then some Severity.high
  else if s = "CRITICAL" then some Severity.critical
  else if s = "ALLOW_ALL" then some Severity.allowAll
  else if s = "BLOCK_ALL" then some Severity.blockAll
  else none

/-- Modelled from the spec: `exceeds(actual, threshold)` is true iff `actual`
ranks strictly above `threshold`; with `threshold = ALLOW_ALL` always false,
with `threshold = BLOCK_ALL` true for any real severity. -/
def exceeds (actual threshold : Severity) : Bool :=
  decide (rank threshold < rank actual)

/-! ## Data model (spec section 3) -/

/-- A vulnerability as reported by the metadata fetcher; the severity is the
raw string from the backend, parsed during evaluation. -/
structure Vulnerability where
  cve : String
  severity : String
  hasFixAvailable : Bool
deriving DecidableEq

/-- Build provenance: project that built the image plus its creator. -/
structure BuildProvenance where
  projectID : String
  creator : String
deriving DecidableEq

/-- A build record; its provenance may be absent. -/
structure Build where
  provenance : Option BuildProvenance
deriving DecidableEq

inductive ViolationType where
  | unqualifiedImage
  | fixesAvailable
  | fixesUnavailable
  | buildProjectID
deriving DecidableEq

/-- Violation details: nothing, the offending vulnerability, or the offending
build provenance. -/
inductive Details where
  | noDetails
  | vulnDetails (v : Vulnerability)
  | buildDetails (p : BuildProvenance)
deriving DecidableEq

structure Violation where
  vType : ViolationType
  image : String
  details : Details
  reason : String
deriving DecidableEq

/-- The CVE id carried by a violation's details, when the details are a
vulnerability. -/
def detailsCVE (w : Violation) : Option String :=
  match w.details with
  | Details.vulnDetails v => some v.cve
  | _ => none

/-- An ImageSecurityPolicy's evaluation-relevant fields (spec section 3). -/
structure ISP where
  imageAllowlist : List String
  maximumSeverity : String
  maximumFixUnavailableSeverity : String
  allowlistCVEs : List String
  builtProjectIDs : List String
  attestationAuthorityNames : List String
deriving DecidableEq

/-- The metadata fetcher for one image, as the evaluator observes it: the
outcome of the vulnerability fetch, the outcome of the build fetch, and the
set of attestation authorities holding a valid attestation for the image.
An `Except.error` models a failing fetch. -/
structure Fetcher where
  vulnz : Except String (List Vulnerability)
  builds : Except String (List Build)
  validAttestations : List String

/-! ## Image reference qualification (spec section 6 grammar) -/

/-- `strLeads pat hay` is true iff `pat` is an initial run of `hay`. -/
def strLeads : List Char → List Char → Bool
  | [], _ => true
  | _ :: _, [] => false
  | p :: ps, h :: hs => p == h && strLeads ps hs

/-- `strHasSub pat hay` is true iff `pat` occurs contiguously in `hay`. -/
def strHasSub : List Char → List Char → Bool
  | pat, [] => strLeads pat []
  | pat, h :: hs => strLeads pat (h :: hs) || strHasSub pat hs

/-- Modelled from the spec: "Has digest" means the `@sha256:` digest marker is
present in the image reference. -/
def hasDigest (image : String) : Bool :=
  strHasSub "@sha256:".data image.data

/-- The characters of the registry-host part of an image reference: the
characters before the first `/`, or `none` when the reference contains no
`/` at all. -/
def hostPart : List Char → Option (List Char)
  | [] => none
  | c :: rest =>
    if c = '/' then some []
    else
      match hostPart rest with
      | none => none
      | some h => some (c :: h)

/-- Modelled from the spec: "Qualified" means `host[:port]/path[:tag][@digest]`
with a non-empty host, i.e. the reference names an explicit registry host. -/
def fullyQualifiedImage (image : String) : Bool :=
  match hostPart image.data with
  | none => false
  | some [] => false
  | some (_ :: _) => true

/-! ## ISP evaluator (spec section 4.D)

The implementation (`ValidateImageSecurityPolicy` of the securitypolicy
package) is not part of the repository snapshot; everything below is
modelled from the spec's section 4.D, step by step. -/

/-- Modelled from the spec: reason string of an `UnqualifiedImage` violation,
`"<imageRef> is not a fully qualified image"`. -/
def unqualifiedImageReason (image : String) : String :=
  image ++ " is not a fully qualified image"

/-- Modelled from the spec: the single violation returned for an image that is
not fully qualified. -/
def unqualifiedViolation (image : String) : Violation :=
  ⟨ViolationType.unqualifiedImage, image, Details.noDetails, unqualifiedImageReason image⟩

/-- Modelled from the spec: default applied once at entry — an empty
`maximumSeverity` means `CRITICAL`. -/
def defaultedMaxSeverity (isp : ISP) : String :=
  if isp.maximumSeverity = "" then "CRITICAL" else isp.maximumSeverity

/-- Modelled from the spec: default applied once at entry — an empty
`maximumFixUnavailableSeverity` means `ALLOW_ALL`. -/
def defaultedMaxFixUnavailable (isp : ISP) : String :=
  if isp.maximumFixUnavailableSeverity = "" then "ALLOW_ALL"
  else isp.maximumFixUnavailableSeverity

/-- The violation emitted for a vulnerability exceeding its threshold:
kind `FixesAvailable` when a fix exists, `FixesUnavailable` otherwise,
details the vulnerability itself. -/
def mkVulnViolation (image : String) (v : Vulnerability) : Violation :=
  ⟨if v.hasFixAvailable then ViolationType.fixesAvailable else ViolationType.fixesUnavailable,
   image, Details.vulnDetails v,
   "found CVE " ++ v.cve ++ " in " ++ image ++ " which has severity " ++ v.severity⟩

/-- Modelled from the spec: whether a build's provenance names one of the
required projects. -/
def provMatch (ids : List String) (b : Build) : Bool :=
  match b.provenance with
  | none => false
  | some p => decide (p.projectID ∈ ids)

/-- Details carried by a `BuildProjectID` violation: the offending provenance
when one exists. -/
def provDetails : Option BuildProvenance → Details
  | none => Details.noDetails
  | some p => Details.buildDetails p

/-- Reason string of a `BuildProjectID` violation. -/
def buildProjectIDReason (image : String) : String :=
  image ++ " was not built in a permitted project"

/-- Modelled from the spec, step 4: with a non-empty `builtProjectIDs`, no
build record at all gives one `BuildProjectID` violation with no details;
otherwise, if no build's provenance projectID is in `builtProjectIDs`, one
`BuildProjectID` violation carrying the first offending provenance; if at
least one matches, nothing. -/
def buildViolations (ids : List String) (image : String) : List Build → List Violation
  | [] => [⟨ViolationType.buildProjectID, image, Details.noDetails, buildProjectIDReason image⟩]
  | b :: bs =>
    if (b :: bs).any (provMatch ids) then []
    else [⟨ViolationType.buildProjectID, image, provDetails b.provenance, buildProjectIDReason image⟩]

/-- Modelled from the spec, step 5: for each vulnerability, skip it if its CVE
is allowlisted; otherwise parse its severity and the threshold selected by
fix availability (`maximumFixUnavailableSeverity` when no fix is available,
`maximumSeverity` otherwise) and emit a violation iff the severity strictly
exceeds the threshold. A parse failure is an error, and errors never carry
partial violation lists. -/
def vulnViolations (cveAllowlist : List String) (maxSev maxNoFix image : String) :
    List Vulnerability → Except String (List Violation)
  | [] => Except.ok []
  | v :: rest =>
    if v.cve ∈ cveAllowlist then
      vulnViolations cveAllowlist maxSev maxNoFix image rest
    else
      match parseSeverity v.severity,
            parseSeverity (if v.hasFixAvailable then maxSev else maxNoFix) with
      | some sev, some thr =>
        Except.map
          (fun tail => if exceeds sev thr then mkVulnViolation image v :: tail else tail)
          (vulnViolations cveAllowlist maxSev maxNoFix image rest)
      | _, _ => Except.error ("unable to parse severity for CVE " ++ v.cve)

/-- Modelled from the spec, section 4.D: `ValidateImageSecurityPolicy`.
Preconditions are checked in order and the first match short-circuits:
unqualified image, image allowlist, attestation shortcut, build-provenance
check, vulnerability check; thresholds are defaulted once at entry. -/
def validateImageSecurityPolicy (isp : ISP) (image : String) (client : Fetcher) :
    Except String (List Violation) :=
  let maxSev := defaultedMaxSeverity isp
  let maxNoFix := defaultedMaxFixUnavailable isp
  if !hasDigest image && !fullyQualifiedImage image then
    Except.ok [unqualifiedViolation image]
  else if image ∈ isp.imageAllowlist then
    Except.ok []
  else if isp.attestationAuthorityNames.any (fun a => decide (a ∈ client.validAttestations)) then
    Except.ok []
  else
    match (if isp.builtProjectIDs.isEmpty then Except.ok []
           else Except.map (buildViolations isp.builtProjectIDs image) client.builds) with
    | Except.error e => Except.error e
    | Except.ok buildV =>
      match client.vulnz with
      | Except.error e => Except.error e
      | Except.ok vulns =>
        match vulnViolations isp.allowlistCVEs maxSev maxNoFix image vulns with
        | Except.error e => Except.error e
        | Except.ok vulnV => Except.ok (buildV ++ vulnV)

/-- The spec-side characterization of when a vulnerability is flagged
(section 4.D step 5, stated directly from the spec's words): the CVE is not
allowlisted and its severity strictly exceeds the threshold chosen by fix
availability. Used only to compare the evaluator against the spec. -/
def specVulnFlagged (cveAllowlist : List String) (maxSev maxNoFix : String)
    (v : Vulnerability) : Bool :=
  if v.cve ∈ cveAllowlist then false
  else
    match parseSeverity v.severity,
          parseSeverity (if v.hasFixAvailable then maxSev else maxNoFix) with
    | some sev, some thr => exceeds sev thr
    | _, _ => false

/-! ## Concrete fixtures mirroring the securitypolicy tests -/

/-- A fully qualified, digest-carrying image reference, standing in for the
tests' `testutil.QualifiedImage`. -/
def qualifiedImage : String := "gcr.io/kritis-project/image@sha256:b5b2"

/-- The eight vulnerabilities of `Test_SeverityThresholds`: one per severity,
with and without an available fix. -/
def vulnz8 : List Vulnerability :=
  [⟨"l", "LOW", true⟩, ⟨"l_nofix", "LOW", false⟩,
   ⟨"m", "MEDIUM", true⟩, ⟨"m_nofix", "MEDIUM", false⟩,
   ⟨"h", "HIGH", true⟩, ⟨"h_nofix", "HIGH", false⟩,
   ⟨"c", "CRITICAL", true⟩, ⟨"c_nofix", "CRITICAL", false⟩]

/-- A fetcher reporting the given vulnerabilities, no builds, and no
attestations. -/
def clientOfVulnz (vs : List Vulnerability) : Fetcher :=
  ⟨Except.ok vs, Except.ok [], []⟩

/-- ISP of scenario S3: `maximumSeverity = MEDIUM`,
`maximumFixUnavailableSeverity = HIGH`. -/
def ispS3 : ISP := ⟨[], "MEDIUM", "HIGH", [], [], []⟩

/-- ISP of scenario S1: both thresholds left empty. -/
def ispBothEmpty : ISP := ⟨[], "", "", [], [], []⟩

/-- A fetcher whose every fetch fails: used to witness that short-circuiting
branches never consult the metadata backend. -/
def errFetcher : Fetcher :=
  ⟨Except.error "metadata fetch failed", Except.error "metadata fetch failed", []⟩

/-! ## Helper lemmas about the evaluator -/

theorem vulnViolations_eq_filter (allow : List String) (maxSev maxNoFix image : String) :
    ∀ vulns : List Vulnerability,
      (∀ v ∈ vulns, v.cve ∉ allow →
        (parseSeverity v.severity).isSome ∧
        (parseSeverity (if v.hasFixAvailable then maxSev else maxNoFix)).isSome) →
      vulnViolations allow maxSev maxNoFix image vulns =
        Except.ok
          ((vulns.filter (specVulnFlagged allow maxSev maxNoFix)).map (mkVulnViolation image)) := by
  intro vulns
  induction vulns with
  | nil => intro _; rfl
  | cons v rest ih =>
    intro h
    have hrest := fun w hw => h w (List.mem_cons_of_mem v hw)
    by_cases hcve : v.cve ∈ allow
    · have hflag : specVulnFlagged allow maxSev maxNoFix v = false := by
        simp [specVulnFlagged, hcve]
      simp [vulnViolations, hcve, List.filter_cons, hflag, ih hrest]
    · obtain ⟨h1, h2⟩ := h v (List.mem_cons_self v rest) hcve
      obtain ⟨sev, hsev⟩ := Option.isSome_iff_exists.mp h1
      obtain ⟨thr, hthr⟩ := Option.isSome_iff_exists.mp h2
      have hflag : specVulnFlagged allow maxSev maxNoFix v = exceeds sev thr := by
        simp [specVulnFlagged, hcve, hsev, hthr]
      by_cases hex : exceeds sev thr = true
      · simp [vulnViolations, hcve, hsev, hthr, ih hrest, Except.map, List.filter_cons,
              hflag, hex]
      · simp [vulnViolations, hcve, hsev, hthr, ih hrest, Except.map, List.filter_cons,
              hflag, hex]

theorem vulnViolations_kinds (allow : List String) (maxSev maxNoFix image : String) :
    ∀ (vulns : List Vulnerability) (vs : List Violation),
      vulnViolations allow maxSev maxNoFix image vulns = Except.ok vs →
      ∀ w ∈ vs, w.vType = ViolationType.fixesAvailable ∨
        w.vType = ViolationType.fixesUnavailable := by
  intro vulns
  induction vulns with
  | nil =>
    intro vs hvs w hw
    simp only [vulnViolations] at hvs
    cases hvs
    simp at hw
  | cons v rest ih =>
    intro vs hvs w hw
    by_cases hcve : v.cve ∈ allow
    · simp only [vulnViolations, if_pos hcve] at hvs
      exact ih vs hvs w hw
    · simp only [vulnViolations, if_neg hcve] at hvs
      cases hsev : parseSeverity v.severity with
      | none => rw [hsev] at hvs; simp at hvs
      | some sev =>
        cases hthr : parseSeverity (if v.hasFixAvailable then maxSev else maxNoFix) with
        | none => rw [hsev, hthr] at hvs; simp at hvs
        | some thr =>
          rw [hsev, hthr] at hvs
          cases hr : vulnViolations allow maxSev maxNoFix image rest with
          | error e => rw [hr] at hvs; simp [Except.map] at hvs
          | ok tail =>
            rw [hr] at hvs
            simp only [Except.map, Except.ok.injEq] at hvs
            subst hvs
            by_cases hex : exceeds sev thr = true
            · rw [if_pos hex] at hw
              rcases List.mem_cons.mp hw with hw1 | hw2
              · subst hw1
                by_cases hfix : v.hasFixAvailable = true
                · exact Or.inl (by simp [mkVulnViolation, hfix])
                · exact Or.inr (by simp [mkVulnViolation, hfix])
              · exact ih tail hr w hw2
            · rw [if_neg hex] at hw
              exact ih tail hr w hw

/-- Adding a CVE to the allowlist keeps a successful vulnerability scan
successful and filters out exactly the violations whose CVE is the added
one. -/
theorem vulnViolations_addAllow (id : String) (allow : List String)
    (maxSev maxNoFix image : String) :
    ∀ (vulns : List Vulnerability) (vs : List Violation),
      vulnViolations allow maxSev maxNoFix image vulns = Except.ok vs →
      vulnViolations (id :: allow) maxSev maxNoFix image vulns =
        Except.ok (vs.filter (fun w => !(detailsCVE w == some id))) := by
  intro vulns
  induction vulns with
  | nil =>
    intro vs hvs
    simp only [vulnViolations] at hvs
    cases hvs
    rfl
  | cons v rest ih =>
    intro vs hvs
    by_cases hcve : v.cve ∈ allow
    · have hcve2 : v.cve ∈ id :: allow := List.mem_cons_of_mem id hcve
      simp only [vulnViolations, if_pos hcve] at hvs
      simp only [vulnViolations, if_pos hcve2]
      exact ih vs hvs
    · simp only [vulnViolations, if_neg hcve] at hvs
      cases hsev : parseSeverity v.severity with
      | none => rw [hsev] at hvs; simp at hvs
      | some sev =>
        cases hthr : parseSeverity (if v.hasFixAvailable then maxSev else maxNoFix) with
        | none => rw [hsev, hthr] at hvs; simp at hvs
        | some thr =>
          rw [hsev, hthr] at hvs
          cases hr : vulnViolations allow maxSev maxNoFix image rest with
          | error e => rw [hr] at hvs; simp [Except.map] at hvs
          | ok tail =>
            rw [hr] at hvs
            simp only [Except.map, Except.ok.injEq] at hvs
            subst hvs
            by_cases hid : v.cve = id
            · have hcve2 : v.cve ∈ id :: allow := by
                rw [hid]; exact List.mem_cons_self id allow
              simp only [vulnViolations, if_pos hcve2]
              rw [ih tail hr]
              by_cases hex : exceeds sev thr = true
              · simp [hex, List.filter_cons, detailsCVE, mkVulnViolation, hid]
              · simp [hex]
            · have hcve2 : v.cve ∉ id :: allow := by
                intro hmem
                rcases List.mem_cons.mp hmem with hh | hh
                · exact hid hh
                · exact hcve hh
              simp only [vulnViolations, if_neg hcve2]
              rw [hsev, hthr, ih tail hr]
              by_cases hex : exceeds sev thr = true
              · simp [Except.map, hex, List.filter_cons, detailsCVE, mkVulnViolation, hid]
              · simp [Except.map, hex]

/-- Build violations never carry a CVE, so a CVE filter keeps them all. -/
theorem buildViolations_filter_cve (id : String) (ids : List String) (image : String)
    (bs : List Build) :
    (buildViolations ids image bs).filter (fun w => !(detailsCVE w == some id)) =
      buildViolations ids image bs := by
  cases bs with
  | nil => rfl
  | cons b bs2 =>
    simp only [buildViolations]
    by_cases h : (b :: bs2).any (provMatch ids) = true
    · simp [h]
    · cases hp : b.provenance <;>
        simp [h, hp, provDetails, detailsCVE, List.filter_cons]

/-- Unfolding of the evaluator once the three short-circuiting checks have all
failed. -/
theorem validate_unfold_main (isp : ISP) (image : String) (client : Fetcher)
    (hq : (!hasDigest image && !fullyQualifiedImage image) = false)
    (hal : image ∉ isp.imageAllowlist)
    (hatt : isp.attestationAuthorityNames.any
      (fun a => decide (a ∈ client.validAttestations)) = false) :
    validateImageSecurityPolicy isp image client =
      match (if isp.builtProjectIDs.isEmpty then Except.ok []
             else Except.map (buildViolations isp.builtProjectIDs image) client.builds) with
      | Except.error e => Except.error e
      | Except.ok buildV =>
        match client.vulnz with
        | Except.error e => Except.error e
        | Except.ok vulns =>
          match vulnViolations isp.allowlistCVEs (defaultedMaxSeverity isp)
              (defaultedMaxFixUnavailable isp) image vulns with
          | Except.error e => Except.error e
          | Except.ok vulnV => Except.ok (buildV ++ vulnV) := by
  simp only [validateImageSecurityPolicy, hq, hal, hatt]
  simp

/-- Unfolding of the evaluator when the attestation shortcut fires. -/
theorem validate_unfold_short (isp : ISP) (image : String) (client : Fetcher)
    (hq : (!hasDigest image && !fullyQualifiedImage image) = false)
    (hal : image ∉ isp.imageAllowlist)
    (hatt : isp.attestationAuthorityNames.any
      (fun a => decide (a ∈ client.validAttestations)) = true) :
    validateImageSecurityPolicy isp image client = Except.ok [] := by
  simp [validateImageSecurityPolicy, hq, hal, hatt]

/-- Unfolding of the evaluator for an unqualified image. -/
theorem validate_unqual (isp : ISP) (image : String) (client : Fetcher)
    (hq : (!hasDigest image && !fullyQualifiedImage image) = true) :
    validateImageSecurityPolicy isp image client =
      Except.ok [unqualifiedViolation image] := by
  simp [validateImageSecurityPolicy, hq]

/-- Unfolding of the evaluator for an allowlisted image. -/
theorem validate_allowlisted (isp : ISP) (image : String) (client : Fetcher)
    (hq : (!hasDigest image && !fullyQualifiedImage image) = false)
    (hmem : image ∈ isp.imageAllowlist) :
    validateImageSecurityPolicy isp image client = Except.ok [] := by
  simp [validateImageSecurityPolicy, hq, hmem]

/-- Forward composition: the evaluator's result in the main branch from the
results of its three stages. -/
theorem validate_main_eq (isp : ISP) (image : String) (client : Fetcher)
    (hq : (!hasDigest image && !fullyQualifiedImage image) = false)
    (hal : image ∉ isp.imageAllowlist)
    (hatt : isp.attestationAuthorityNames.any
      (fun a => decide (a ∈ client.validAttestations)) = false)
    (buildV : List Violation) (vulns : List Vulnerability) (vulnV : List Violation)
    (hbv : (if isp.builtProjectIDs.isEmpty then Except.ok []
            else Except.map (buildViolations isp.builtProjectIDs image) client.builds) =
      Except.ok buildV)
    (hvz : client.vulnz = Except.ok vulns)
    (hvv : vulnViolations isp.allowlistCVEs (defaultedMaxSeverity isp)
      (defaultedMaxFixUnavailable isp) image vulns = Except.ok vulnV) :
    validateImageSecurityPolicy isp image client = Except.ok (buildV ++ vulnV) := by
  rw [validate_unfold_main isp image client hq hal hatt]
  split
  · rename_i e heq
    rw [hbv] at heq
    simp at heq
  · rename_i bV heq
    rw [hbv] at heq
    simp only [Except.ok.injEq] at heq
    subst heq
    split
    · rename_i e heq2
      rw [hvz] at heq2
      simp at heq2
    · rename_i vl heq2
      rw [hvz] at heq2
      simp only [Except.ok.injEq] at heq2
      subst heq2
      split
      · rename_i e heq3
        rw [hvv] at heq3
        simp at heq3
      · rename_i vV heq3
        rw [hvv] at heq3
        simp only [Except.ok.injEq] at heq3
        subst heq3
        rfl

/-- Inversion: a successful evaluation in the main branch decomposes into the
three stage results. -/
theorem validate_main_ok_inv (isp : ISP) (image : String) (client : Fetcher)
    (vs : List Violation)
    (hq : (!hasDigest image && !fullyQualifiedImage image) = false)
    (hal : image ∉ isp.imageAllowlist)
    (hatt : isp.attestationAuthorityNames.any
      (fun a => decide (a ∈ client.validAttestations)) = false)
    (hvs : validateImageSecurityPolicy isp image client = Except.ok vs) :
    ∃ buildV vulns vulnV,
      (if isp.builtProjectIDs.isEmpty then Except.ok []
       else Except.map (buildViolations isp.builtProjectIDs image) client.builds) =
        Except.ok buildV ∧
      client.vulnz = Except.ok vulns ∧
      vulnViolations isp.allowlistCVEs (defaultedMaxSeverity isp)
        (defaultedMaxFixUnavailable isp) image vulns = Except.ok vulnV ∧
      vs = buildV ++ vulnV := by
  rw [validate_unfold_main isp image client hq hal hatt] at hvs
  split at hvs
  · simp at hvs
  · rename_i buildV hbv
    split at hvs
    · simp at hvs
    · rename_i vulns hvz
      split at hvs
      · simp at hvs
      · rename_i vulnV hvv
        simp only [Except.ok.injEq] at hvs
        exact ⟨buildV, vulns, vulnV, hbv, hvz, hvv, hvs.symm⟩

/-! ## Claim theorems: evaluator -/

/-- Claim C1: every fetched vulnerability of a qualified, non-allowlisted
image is compared against exactly one threshold, selected by fix
availability (`maximumFixUnavailableSeverity` when no fix is available,
`maximumSeverity` otherwise), and yields a violation iff its severity
strictly exceeds that threshold; concretely, for the split-threshold ISP
`{maximumSeverity: MEDIUM, maximumFixUnavailableSeverity: HIGH}` and the
eight test vulnerabilities, the violations are exactly `{h, c, c_nofix}`. -/
theorem severity_threshold_split :
    (∀ (isp : ISP) (image : String) (client : Fetcher) (vulns : List Vulnerability),
      (hasDigest image = true ∨ fullyQualifiedImage image = true) →
      image ∉ isp.imageAllowlist →
      isp.attestationAuthorityNames.any
        (fun a => decide (a ∈ client.validAttestations)) = false →
      isp.builtProjectIDs = [] →
      client.vulnz = Except.ok vulns →
      (∀ v ∈ vulns, v.cve ∉ isp.allowlistCVEs →
        (parseSeverity v.severity).isSome ∧
        (parseSeverity (if v.hasFixAvailable then defaultedMaxSeverity isp
                        else defaultedMaxFixUnavailable isp)).isSome) →
      validateImageSecurityPolicy isp image client =
        Except.ok ((vulns.filter (specVulnFlagged isp.allowlistCVEs
            (defaultedMaxSeverity isp) (defaultedMaxFixUnavailable isp))).map
          (mkVulnViolation image)))
    ∧ validateImageSecurityPolicy ispS3 qualifiedImage (clientOfVulnz vulnz8) =
        Except.ok [mkVulnViolation qualifiedImage ⟨"h", "HIGH", true⟩,
                   mkVulnViolation qualifiedImage ⟨"c", "CRITICAL", true⟩,
                   mkVulnViolation qualifiedImage ⟨"c_nofix", "CRITICAL", false⟩] := by
  constructor
  · intro isp image client vulns hq hal hatt hpid hvulnz hparse
    have hq' : (!hasDigest image && !fullyQualifiedImage image) = false := by
      rcases hq with h | h <;> simp [h]
    rw [validate_unfold_main isp image client hq' hal hatt]
    rw [hpid, hvulnz]
    simp [vulnViolations_eq_filter isp.allowlistCVEs (defaultedMaxSeverity isp)
      (defaultedMaxFixUnavailable isp) image vulns hparse]
  · rfl

/-- Witness for C1: the general characterization applied to the S3 scenario. -/
theorem severity_threshold_split_witness :
    validateImageSecurityPolicy ispS3 qualifiedImage (clientOfVulnz vulnz8) =
      Except.ok ((vulnz8.filter (specVulnFlagged ispS3.allowlistCVEs
          (defaultedMaxSeverity ispS3) (defaultedMaxFixUnavailable ispS3))).map
        (mkVulnViolation qualifiedImage)) :=
  severity_threshold_split.1 ispS3 qualifiedImage (clientOfVulnz vulnz8) vulnz8
    (Or.inl (by decide)) (by decide) (by decide) rfl rfl (by decide)

/-- For a vulnerability of one of the four real severities, the all-default
thresholds (`CRITICAL` for fixable, `ALLOW_ALL` for unfixable) flag
nothing. -/
theorem specVulnFlagged_defaults_false (v : Vulnerability)
    (hs : v.severity = "LOW" ∨ v.severity = "MEDIUM" ∨ v.severity = "HIGH" ∨
      v.severity = "CRITICAL") :
    specVulnFlagged [] "CRITICAL" "ALLOW_ALL" v = false := by
  rcases hs with h | h | h | h <;> cases hfix : v.hasFixAvailable <;>
    simp [specVulnFlagged, h, hfix, parseSeverity, exceeds, rank]

/-- Claim C3: defaults are applied once at entry (empty `maximumSeverity`
becomes `CRITICAL`, empty `maximumFixUnavailableSeverity` becomes
`ALLOW_ALL`), and under these defaults a qualified image with
vulnerabilities of every real severity, with and without fixes, yields zero
violations. -/
theorem default_thresholds_allow_all :
    defaultedMaxSeverity ispBothEmpty = "CRITICAL"
    ∧ defaultedMaxFixUnavailable ispBothEmpty = "ALLOW_ALL"
    ∧ (∀ (vulns : List Vulnerability) (bres : Except String (List Build))
        (atts : List String),
        (∀ v ∈ vulns, v.severity = "LOW" ∨ v.severity = "MEDIUM" ∨
          v.severity = "HIGH" ∨ v.severity = "CRITICAL") →
        validateImageSecurityPolicy ispBothEmpty qualifiedImage
          ⟨Except.ok vulns, bres, atts⟩ = Except.ok [])
    ∧ validateImageSecurityPolicy ispBothEmpty qualifiedImage (clientOfVulnz vulnz8) =
        Except.ok [] := by
  refine ⟨rfl, rfl, ?_, rfl⟩
  intro vulns bres atts h
  have hparse : ∀ v ∈ vulns, v.cve ∉ ([] : List String) →
      (parseSeverity v.severity).isSome ∧
      (parseSeverity (if v.hasFixAvailable then "CRITICAL" else "ALLOW_ALL")).isSome := by
    intro v hv _
    constructor
    · rcases h v hv with hs | hs | hs | hs <;> simp [hs, parseSeverity]
    · cases hfix : v.hasFixAvailable <;> simp [parseSeverity]
  have hfil : vulns.filter (specVulnFlagged [] "CRITICAL" "ALLOW_ALL") = [] := by
    rw [List.filter_eq_nil_iff]
    intro v hv
    simp [specVulnFlagged_defaults_false v (h v hv)]
  have hmain := validate_unfold_main ispBothEmpty qualifiedImage
    ⟨Except.ok vulns, bres, atts⟩ (by decide) (by decide) rfl
  have hvv := vulnViolations_eq_filter [] "CRITICAL" "ALLOW_ALL" qualifiedImage vulns hparse
  rw [hfil] at hvv
  rw [hmain]
  simp [ispBothEmpty, defaultedMaxSeverity, defaultedMaxFixUnavailable, hvv]

/-- Witness for C3: all defaults, the eight test vulnerabilities, no
violations. -/
theorem default_thresholds_allow_all_witness :
    validateImageSecurityPolicy ispBothEmpty qualifiedImage
      ⟨Except.ok vulnz8, Except.ok [], []⟩ = Except.ok [] :=
  default_thresholds_allow_all.2.2.1 vulnz8 (Except.ok []) [] (by decide)

/-- Claim C4: an image reference with neither digest nor registry host yields
exactly one `UnqualifiedImage` violation with the reason
`"<imageRef> is not a fully qualified image"`, for every ISP and every
metadata state — in particular for a fetcher whose every fetch fails, so no
metadata fetch is performed for the image. -/
theorem unqualified_image_single_violation (isp : ISP) (image : String) (client : Fetcher)
    (hd : hasDigest image = false) (hq : fullyQualifiedImage image = false) :
    validateImageSecurityPolicy isp image client =
      Except.ok [⟨ViolationType.unqualifiedImage, image, Details.noDetails,
                  image ++ " is not a fully qualified image"⟩] := by
  simp [validateImageSecurityPolicy, hd, hq, unqualifiedViolation, unqualifiedImageReason]

/-- Witness for C4: the unqualified reference `"image"`, an arbitrary ISP and
an always-failing fetcher. -/
theorem unqualified_image_single_violation_witness :
    hasDigest "image" = false ∧ fullyQualifiedImage "image" = false ∧
    validateImageSecurityPolicy ispS3 "image" errFetcher =
      Except.ok [⟨ViolationType.unqualifiedImage, "image", Details.noDetails,
                  "image" ++ " is not a fully qualified image"⟩] :=
  ⟨by decide, by decide,
   unqualified_image_single_violation ispS3 "image" errFetcher (by decide) (by decide)⟩

/-- Claim C5: a qualified image reference that appears exactly in the ISP's
image allowlist evaluates to the empty violation list, for every metadata
state (including failing fetchers, so no metadata is consulted). -/
theorem image_allowlist_absorbs (isp : ISP) (image : String) (client : Fetcher)
    (hq : hasDigest image = true ∨ fullyQualifiedImage image = true)
    (hmem : image ∈ isp.imageAllowlist) :
    validateImageSecurityPolicy isp image client = Except.ok [] := by
  have hq' : (!hasDigest image && !fullyQualifiedImage image) = false := by
    rcases hq with h | h <;> simp [h]
  simp [validateImageSecurityPolicy, hq', hmem]

/-- ISP allowlisting `qualifiedImage` with the strictest real threshold. -/
def ispAllow : ISP := ⟨[qualifiedImage], "LOW", "", [], [], []⟩

/-- Witness for C5: the allowlisted qualified image evaluates to no violations
even though the (failing) fetcher would block everything else. -/
theorem image_allowlist_absorbs_witness :
    validateImageSecurityPolicy ispAllow qualifiedImage errFetcher = Except.ok [] :=
  image_allowlist_absorbs ispAllow qualifiedImage errFetcher (Or.inl (by decide))
    (by decide)

/-- The ISP with one more allowlisted CVE and everything else unchanged. -/
def addAllowlistCVE (id : String) (isp : ISP) : ISP :=
  ⟨isp.imageAllowlist, isp.maximumSeverity, isp.maximumFixUnavailableSeverity,
   id :: isp.allowlistCVEs, isp.builtProjectIDs, isp.attestationAuthorityNames⟩

theorem addAllowlistCVE_imageAllowlist (id : String) (isp : ISP) :
    (addAllowlistCVE id isp).imageAllowlist = isp.imageAllowlist := rfl

theorem addAllowlistCVE_builtProjectIDs (id : String) (isp : ISP) :
    (addAllowlistCVE id isp).builtProjectIDs = isp.builtProjectIDs := rfl

theorem addAllowlistCVE_authorities (id : String) (isp : ISP) :
    (addAllowlistCVE id isp).attestationAuthorityNames = isp.attestationAuthorityNames := rfl

theorem addAllowlistCVE_maxSev (id : String) (isp : ISP) :
    defaultedMaxSeverity (addAllowlistCVE id isp) = defaultedMaxSeverity isp := rfl

theorem addAllowlistCVE_maxNoFix (id : String) (isp : ISP) :
    defaultedMaxFixUnavailable (addAllowlistCVE id isp) = defaultedMaxFixUnavailable isp := rfl

theorem addAllowlistCVE_cves (id : String) (isp : ISP) :
    (addAllowlistCVE id isp).allowlistCVEs = id :: isp.allowlistCVEs := rfl

theorem none_beq_some (id : String) : ((none : Option String) == some id) = false := rfl

/-- ISP of scenario S5: `maximumSeverity = LOW` and CVE `c` allowlisted. -/
def ispS5 : ISP := ⟨[], "LOW", "", ["c"], [], []⟩

/-- `maximumSeverity = LOW`, nothing allowlisted: flags any fixable CVE above
LOW. -/
def ispLow : ISP := ⟨[], "LOW", "BLOCK_ALL", [], [], []⟩

/-- Claim C6: adding a CVE id to `allowlistCVEs` turns a successful evaluation
into the same violation list minus exactly the violations whose details
carry that CVE — it never introduces new violations; concretely, a CRITICAL
CVE `c` whose id is allowlisted contributes no violation even far above the
threshold (S5, with and without an available fix). -/
theorem cve_allowlist_only_removes :
    (∀ (id : String) (isp : ISP) (image : String) (client : Fetcher) (vs : List Violation),
      validateImageSecurityPolicy isp image client = Except.ok vs →
      validateImageSecurityPolicy (addAllowlistCVE id isp) image client =
        Except.ok (vs.filter (fun w => !(detailsCVE w == some id))))
    ∧ validateImageSecurityPolicy ispS5 qualifiedImage
        (clientOfVulnz [⟨"c", "CRITICAL", false⟩]) = Except.ok []
    ∧ validateImageSecurityPolicy (addAllowlistCVE "c" ispLow) qualifiedImage
        (clientOfVulnz [⟨"c", "CRITICAL", true⟩]) = Except.ok [] := by
  refine ⟨?_, rfl, rfl⟩
  intro id isp image client vs hvs
  cases hcond : (!hasDigest image && !fullyQualifiedImage image) with
  | true =>
    rw [validate_unqual isp image client hcond] at hvs
    rw [validate_unqual (addAllowlistCVE id isp) image client hcond]
    simp only [Except.ok.injEq] at hvs
    rw [← hvs]
    simp [unqualifiedViolation, detailsCVE, none_beq_some]
  | false =>
    by_cases h2 : image ∈ isp.imageAllowlist
    · rw [validate_allowlisted isp image client hcond h2] at hvs
      rw [validate_allowlisted (addAllowlistCVE id isp) image client hcond h2]
      simp only [Except.ok.injEq] at hvs
      rw [← hvs]
      rfl
    · have h3' : isp.attestationAuthorityNames.any
          (fun a => decide (a ∈ client.validAttestations)) = false ∨
          isp.attestationAuthorityNames.any
          (fun a => decide (a ∈ client.validAttestations)) = true := by
        cases isp.attestationAuthorityNames.any
          (fun a => decide (a ∈ client.validAttestations)) <;> simp
      rcases h3' with h3 | h3
      · obtain ⟨buildV, vulns, vulnV, hbv, hvz, hvv, hveq⟩ :=
          validate_main_ok_inv isp image client vs hcond h2 h3 hvs
        subst hveq
        have hvv2 := vulnViolations_addAllow id isp.allowlistCVEs
          (defaultedMaxSeverity isp) (defaultedMaxFixUnavailable isp) image vulns vulnV hvv
        have hmain := validate_main_eq (addAllowlistCVE id isp) image client hcond h2 h3
          buildV vulns (vulnV.filter (fun w => !(detailsCVE w == some id))) hbv hvz hvv2
        have hbfilter : buildV.filter (fun w => !(detailsCVE w == some id)) = buildV := by
          by_cases hempty : isp.builtProjectIDs.isEmpty = true
          · rw [if_pos hempty] at hbv
            simp only [Except.ok.injEq] at hbv
            rw [← hbv]
            rfl
          · rw [if_neg hempty] at hbv
            cases hcb : client.builds with
            | error e => rw [hcb] at hbv; simp [Except.map] at hbv
            | ok bs =>
              rw [hcb] at hbv
              simp only [Except.map, Except.ok.injEq] at hbv
              rw [← hbv]
              exact buildViolations_filter_cve id isp.builtProjectIDs image bs
        rw [hmain, List.filter_append, hbfilter]
      · rw [validate_unfold_short isp image client hcond h2 h3] at hvs
        rw [validate_unfold_short (addAllowlistCVE id isp) image client hcond h2 h3]
        simp only [Except.ok.injEq] at hvs
        rw [← hvs]
        rfl

/-- Witness for C6: allowlisting `c` removes exactly the `c` violation. -/
theorem cve_allowlist_only_removes_witness :
    validateImageSecurityPolicy (addAllowlistCVE "c" ispLow) qualifiedImage
        (clientOfVulnz [⟨"c", "CRITICAL", true⟩]) =
      Except.ok (([mkVulnViolation qualifiedImage ⟨"c", "CRITICAL", true⟩]).filter
        (fun w => !(detailsCVE w == some "c"))) :=
  cve_allowlist_only_removes.1 "c" ispLow qualifiedImage
    (clientOfVulnz [⟨"c", "CRITICAL", true⟩])
    [mkVulnViolation qualifiedImage ⟨"c", "CRITICAL", true⟩] rfl

/-- ISP of scenario S6: one required build project. -/
def ispBuild : ISP := ⟨[], "", "", [], ["kritis-p-1"], []⟩

/-- A fetcher reporting the given builds, no vulnerabilities, no
attestations. -/
def buildClient (bs : List Build) : Fetcher := ⟨Except.ok [], Except.ok bs, []⟩

/-- Claim C7: with a non-empty `builtProjectIDs`, evaluating a qualified image
contributes exactly one `BuildProjectID` violation when no fetched build's
provenance projectID is in the list (details absent when there is no build
record, otherwise the first offending provenance), and none when at least
one matches; all other violations of the evaluation are non-`BuildProjectID`
vulnerability violations. -/
theorem built_project_ids_enforced :
    (∀ (isp : ISP) (image : String) (client : Fetcher) (bs : List Build)
      (vs : List Violation),
      isp.builtProjectIDs ≠ [] →
      (hasDigest image = true ∨ fullyQualifiedImage image = true) →
      image ∉ isp.imageAllowlist →
      isp.attestationAuthorityNames.any
        (fun a => decide (a ∈ client.validAttestations)) = false →
      client.builds = Except.ok bs →
      validateImageSecurityPolicy isp image client = Except.ok vs →
      ∃ rest, vs = buildViolations isp.builtProjectIDs image bs ++ rest ∧
        ∀ w ∈ rest, w.vType ≠ ViolationType.buildProjectID)
    ∧ (∀ (ids : List String) (image : String),
        buildViolations ids image [] =
          [⟨ViolationType.buildProjectID, image, Details.noDetails,
            buildProjectIDReason image⟩])
    ∧ (∀ (ids : List String) (image : String) (b : Build) (bs : List Build),
        (b :: bs).any (provMatch ids) = true →
        buildViolations ids image (b :: bs) = [])
    ∧ (∀ (ids : List String) (image : String) (b : Build) (bs : List Build),
        (b :: bs).any (provMatch ids) = false →
        buildViolations ids image (b :: bs) =
          [⟨ViolationType.buildProjectID, image, provDetails b.provenance,
            buildProjectIDReason image⟩]) := by
  refine ⟨?_, ?_, ?_, ?_⟩
  · intro isp image client bs vs hids hq hal hatt hb hvs
    have hq' : (!hasDigest image && !fullyQualifiedImage image) = false := by
      rcases hq with h | h <;> simp [h]
    obtain ⟨buildV, vulns, vulnV, hbv, hvz, hvv, hveq⟩ :=
      validate_main_ok_inv isp image client vs hq' hal hatt hvs
    have hemp : isp.builtProjectIDs.isEmpty = false := by
      cases hpp : isp.builtProjectIDs with
      | nil => exact absurd hpp hids
      | cons x xs => rfl
    rw [hemp] at hbv
    simp only [Bool.false_eq_true, if_false] at hbv
    rw [hb] at hbv
    simp only [Except.map, Except.ok.injEq] at hbv
    refine ⟨vulnV, ?_, ?_⟩
    · rw [hveq, hbv]
    · intro w hw
      rcases vulnViolations_kinds isp.allowlistCVEs (defaultedMaxSeverity isp)
        (defaultedMaxFixUnavailable isp) image vulns vulnV hvv w hw with h | h <;>
        simp [h]
  · intro ids image
    rfl
  · intro ids image b bs h
    simp [buildViolations, h]
  · intro ids image b bs h
    simp [buildViolations, h]

/-- Witness for C7: the S6 scenarios — wrong project, no build record,
matching project. -/
theorem built_project_ids_enforced_witness :
    (∃ rest,
      [⟨ViolationType.buildProjectID, qualifiedImage,
        Details.buildDetails ⟨"p2", "someone"⟩, buildProjectIDReason qualifiedImage⟩] =
        buildViolations ispBuild.builtProjectIDs qualifiedImage
          [⟨some ⟨"p2", "someone"⟩⟩] ++ rest ∧
        ∀ w ∈ rest, w.vType ≠ ViolationType.buildProjectID)
    ∧ buildViolations ["kritis-p-1"] qualifiedImage [] =
        [⟨ViolationType.buildProjectID, qualifiedImage, Details.noDetails,
          buildProjectIDReason qualifiedImage⟩]
    ∧ buildViolations ["kritis-p-1"] qualifiedImage
        [⟨some ⟨"kritis-p-1", "someone"⟩⟩] = []
    ∧ buildViolations ["kritis-p-1"] qualifiedImage [⟨some ⟨"p2", "someone"⟩⟩] =
        [⟨ViolationType.buildProjectID, qualifiedImage,
          provDetails (some ⟨"p2", "someone"⟩), buildProjectIDReason qualifiedImage⟩] :=
  ⟨built_project_ids_enforced.1 ispBuild qualifiedImage
      (buildClient [⟨some ⟨"p2", "someone"⟩⟩]) [⟨some ⟨"p2", "someone"⟩⟩]
      [⟨ViolationType.buildProjectID, qualifiedImage,
        Details.buildDetails ⟨"p2", "someone"⟩, buildProjectIDReason qualifiedImage⟩]
      (by decide) (Or.inl (by decide)) (by decide) (by decide) rfl rfl,
   built_project_ids_enforced.2.1 ["kritis-p-1"] qualifiedImage,
   built_project_ids_enforced.2.2.1 ["kritis-p-1"] qualifiedImage
     ⟨some ⟨"kritis-p-1", "someone"⟩⟩ [] (by decide),
   built_project_ids_enforced.2.2.2 ["kritis-p-1"] qualifiedImage
     ⟨some ⟨"p2", "someone"⟩⟩ [] (by decide)⟩

/-! ## Admission pipeline (embedded from the admission package source)

The k8s object model is embedded as follows: a workload (Pod, Deployment or
ReplicaSet) is reduced to the fields the pipeline reads — name, namespace,
annotation map and extracted image list (the image-extraction helpers
`PodImages`/`DeploymentImages`/`ReplicaSetImages` are absent from the
snapshot, so a workload carries its extracted images directly, per the
spec's `imagesOf`). JSON decoding of `Object.Raw`/`OldObject.Raw` is
external library code and is embedded as the decode outcome
(`Except String Workload`). -/

/-- A workload as the pipeline observes it. -/
structure Workload where
  name : String
  namespaceName : String
  annotationMap : Option (List (String × String))
  images : List String

/-- Modelled from the spec: the breakglass annotation key is a single fixed
constant, namespaced with the project's domain prefix (the constants
package is absent from the snapshot; the exact value is immaterial, only
that it is one fixed key). -/
def breakglassKey : String := "kritis.grafeas.io/breakglass"

/-- Embeds `checkBreakglass`: a nil annotation map is `false`; otherwise the
key's presence alone decides, whatever its value. -/
def checkBreakglass (m : Option (List (String × String))) : Bool :=
  match m with
  | none => false
  | some anns => anns.any (fun kv => kv.fst == breakglassKey)

/-- Modelled from the spec (4.E): `hasNewImage(new, old)` is true iff some
image of the new workload does not occur in the old one. -/
def hasNewImage (newImages oldImages : List String) : Bool :=
  newImages.any (fun i => !(oldImages.contains i))

/-- The admission response the pipeline builds and possibly overwrites. -/
structure AdmissionResponse where
  uid : String
  allowed : Bool
  status : String
  message : String
deriving DecidableEq

/-- The success message of the default response (constants package absent
from the snapshot; the value is immaterial). -/
def successMessage : String := "admitted by kritis admission controller"

/-- Embeds the default response built by `ReviewHandler` after a successful
decode: allowed, `Success`, echoing the request UID. -/
def defaultAdmissionResponse (uid : String) : AdmissionResponse :=
  ⟨uid, true, "Success", successMessage⟩

/-- Embeds `createDeniedResponse`: flips the response to a denial with status
`Failure` and the given message. -/
def createDeniedResponse (resp : AdmissionResponse) (message : String) : AdmissionResponse :=
  ⟨resp.uid, false, "Failure", message⟩

/-- The pipeline's collaborators (the package-level `admissionConfig` plus the
metadata-client constructor): ISP fetch per namespace, digest resolution,
metadata-client construction, and the reviewer. Each is embedded as the
outcome the pipeline observes. -/
structure AdmissionConfig where
  fetchImageSecurityPolicies : String → Except String (List ISP)
  resolveImagesToDigest : List String → Except String (List String)
  fetchMetadataClient : Except String Unit
  reviewFn : List String → List ISP → Option Workload → Except String Unit

/-- Embeds `reviewImages`: fetch ISPs (failure denies), allow when no ISP is
found, resolve digests (failure denies), build the metadata client (failure
denies), then run the reviewer (error denies with the reviewer's message). -/
def reviewImages (cfg : AdmissionConfig) (images : List String) (ns : String)
    (podArg : Option Workload) (resp : AdmissionResponse) : AdmissionResponse :=
  match cfg.fetchImageSecurityPolicies ns with
  | Except.error e =>
    createDeniedResponse resp ("error getting image security policies: " ++ e)
  | Except.ok isps =>
    if isps.isEmpty then resp
    else
      match cfg.resolveImagesToDigest images with
      | Except.error e =>
        createDeniedResponse resp ("error resolving tagged images into digest: " ++ e)
      | Except.ok resolvedImages =>
        match cfg.fetchMetadataClient with
        | Except.error e =>
          createDeniedResponse resp ("error getting metadata client: " ++ e)
        | Except.ok _ =>
          match cfg.reviewFn resolvedImages isps podArg with
          | Except.error e => createDeniedResponse resp e
          | Except.ok _ => resp

/-- Embeds `reviewPod`: breakglass short-circuits, otherwise the pod's images
are reviewed with the pod passed to the reviewer. -/
def reviewPod (cfg : AdmissionConfig) (pod : Workload) (resp : AdmissionResponse) :
    AdmissionResponse :=
  if checkBreakglass pod.annotationMap then resp
  else reviewImages cfg pod.images pod.namespaceName (some pod) resp

/-- Embeds `reviewDeployment`: breakglass short-circuits, otherwise the
deployment's images are reviewed with no pod argument. -/
def reviewDeployment (cfg : AdmissionConfig) (d : Workload) (resp : AdmissionResponse) :
    AdmissionResponse :=
  if checkBreakglass d.annotationMap then resp
  else reviewImages cfg d.images d.namespaceName none resp

/-- Embeds `reviewReplicaSet`: breakglass short-circuits, otherwise the
replica set's images are reviewed with no pod argument. -/
def reviewReplicaSet (cfg : AdmissionConfig) (rs : Workload) (resp : AdmissionResponse) :
    AdmissionResponse :=
  if checkBreakglass rs.annotationMap then resp
  else reviewImages cfg rs.images rs.namespaceName none resp

/-- An admission request as the handlers observe it: UID, kind, operation and
the decode outcomes of the new and old object payloads. -/
structure AdmissionRequestModel where
  uid : String
  kindKind : String
  operation : String
  objectPayload : Except String Workload
  oldObjectPayload : Except String Workload

/-- Embeds `handleDeployment`: decode the deployment (failure is a handler
error), on `UPDATE` decode the old deployment and skip the review when no
new image was added, otherwise review. -/
def handleDeployment (cfg : AdmissionConfig) (ar : AdmissionRequestModel)
    (resp : AdmissionResponse) : Except String AdmissionResponse :=
  match ar.objectPayload with
  | Except.error e => Except.error e
  | Except.ok d =>
    if ar.operation == "UPDATE" then
      match ar.oldObjectPayload with
      | Except.error e => Except.error e
      | Except.ok old =>
        if hasNewImage d.images old.images then Except.ok (reviewDeployment cfg d resp)
        else Except.ok resp
    else Except.ok (reviewDeployment cfg d resp)

/-- Embeds `handlePod`: decode the pod and review it — the operation is never
consulted. -/
def handlePod (cfg : AdmissionConfig) (ar : AdmissionRequestModel)
    (resp : AdmissionResponse) : Except String AdmissionResponse :=
  match ar.objectPayload with
  | Except.error e => Except.error e
  | Except.ok p => Except.ok (reviewPod cfg p resp)

/-- Embeds `handleReplicaSet`: like `handleDeployment` for replica sets. -/
def handleReplicaSet (cfg : AdmissionConfig) (ar : AdmissionRequestModel)
    (resp : AdmissionResponse) : Except String AdmissionResponse :=
  match ar.objectPayload with
  | Except.error e => Except.error e
  | Except.ok rs =>
    if ar.operation == "UPDATE" then
      match ar.oldObjectPayload with
      | Except.error e => Except.error e
      | Except.ok old =>
        if hasNewImage rs.images old.images then Except.ok (reviewReplicaSet cfg rs resp)
        else Except.ok resp
    else Except.ok (reviewReplicaSet cfg rs resp)

/-- Embeds the `handlers` map dispatch of `ReviewHandler`: at most one of the
three registered kinds matches; unknown kinds leave the response
untouched. -/
def dispatchHandlers (cfg : AdmissionConfig) (ar : AdmissionRequestModel)
    (resp : AdmissionResponse) : Except String AdmissionResponse :=
  if ar.kindKind == "Deployment" then handleDeployment cfg ar resp
  else if ar.kindKind == "Pod" then handlePod cfg ar resp
  else if ar.kindKind == "ReplicaSet" then handleReplicaSet cfg ar resp
  else Except.ok resp

/-- The deserialization outcomes of an incoming HTTP request body, as
`deserializeRequest` observes them: the body read may fail, the universal
deserializer may fail (possibly leaving a partially decoded request), or
decoding may succeed with a possibly-nil request object. -/
inductive DecodeOutcome where
  | readError (e : String)
  | decodeError (e : String) (prior : Option AdmissionRequestModel)
  | decoded (request : Option AdmissionRequestModel)

/-- Embeds `deserializeRequest`: wraps read and decode failures, and treats a
nil request object as the error "admission request is empty". On error the
partially decoded request (if any) is still available for the UID echo. -/
def deserializeRequest :
    DecodeOutcome → Except (Option AdmissionRequestModel × String) AdmissionRequestModel
  | DecodeOutcome.readError e => Except.error (none, "failed to read body: " ++ e)
  | DecodeOutcome.decodeError e pr => Except.error (pr, "failed to marshal: " ++ e)
  | DecodeOutcome.decoded none => Except.error (none, "admission request is empty")
  | DecodeOutcome.decoded (some r) => Except.ok r

/-- What `ReviewHandler` writes back: a 400 Bad Request carrying a denial
body, a bare 500 Internal Server Error, or a 200 with the admission
response. -/
inductive HandlerOutput where
  | badRequest (resp : AdmissionResponse)
  | internalError
  | okResponse (resp : AdmissionResponse)
deriving DecidableEq

/-- The HTTP status code of each handler outcome: `WriteHeader(400)` in the
deserialization-error branch, `http.Error(500)` on a handler error, and the
implicit 200 of a plain `Write`. -/
def statusCodeOf : HandlerOutput → Nat
  | HandlerOutput.badRequest _ => 400
  | HandlerOutput.internalError => 500
  | HandlerOutput.okResponse _ => 200

/-- Embeds `ReviewHandler`: on a deserialization error, write status 400 and
a response with `allowed=false`, status `Failure` and the error message,
echoing the UID only if a request object was decoded; otherwise build the
default allowed response, dispatch to the kind's handler (handler errors
become a 500), and write the result. -/
def reviewHandler (cfg : AdmissionConfig) (input : DecodeOutcome) : HandlerOutput :=
  match deserializeRequest input with
  | Except.error pe =>
    HandlerOutput.badRequest
      ⟨(pe.fst.map (fun r => r.uid)).getD "", false, "Failure", pe.snd⟩
  | Except.ok r =>
    match dispatchHandlers cfg r (defaultAdmissionResponse r.uid) with
    | Except.error _ => HandlerOutput.internalError
    | Except.ok resp => HandlerOutput.okResponse resp

/-- A concrete configuration whose collaborators all succeed trivially. -/
def trivialAdmissionConfig : AdmissionConfig :=
  ⟨fun _ => Except.ok [], fun imgs => Except.ok imgs, Except.ok (),
   fun _ _ _ => Except.ok ()⟩

/-! ## Claim theorems: admission pipeline -/

/-- Counterexample to claim C2: on a malformed admission request the handler
writes HTTP status 400 (Bad Request), not 200. -/
theorem malformed_request_not_200 :
    statusCodeOf (reviewHandler trivialAdmissionConfig
      (DecodeOutcome.decodeError "failed to decode" none)) = 400
    ∧ statusCodeOf (reviewHandler trivialAdmissionConfig
      (DecodeOutcome.decodeError "failed to decode" none)) ≠ 200 :=
  ⟨rfl, by decide⟩

/-- Claim C2 (amended): when the HTTP body is empty or malformed — the read
fails, the deserializer fails, or decoding produced no request object — the
handler responds with HTTP status 400 Bad Request and a well-formed body
whose `allowed` is false and whose status is `Failure` carrying the decode
error message. -/
theorem reviewHandler_malformed_400 (cfg : AdmissionConfig) (e : String)
    (pr : Option AdmissionRequestModel) :
    reviewHandler cfg (DecodeOutcome.readError e) =
      HandlerOutput.badRequest ⟨"", false, "Failure", "failed to read body: " ++ e⟩
    ∧ reviewHandler cfg (DecodeOutcome.decodeError e pr) =
      HandlerOutput.badRequest
        ⟨(pr.map (fun r => r.uid)).getD "", false, "Failure", "failed to marshal: " ++ e⟩
    ∧ reviewHandler cfg (DecodeOutcome.decoded none) =
      HandlerOutput.badRequest ⟨"", false, "Failure", "admission request is empty"⟩
    ∧ statusCodeOf (reviewHandler cfg (DecodeOutcome.readError e)) = 400
    ∧ statusCodeOf (reviewHandler cfg (DecodeOutcome.decodeError e pr)) = 400
    ∧ statusCodeOf (reviewHandler cfg (DecodeOutcome.decoded none)) = 400 :=
  ⟨rfl, rfl, rfl, rfl, rfl, rfl⟩

/-- Claim C8: an `Update` of a Deployment or ReplicaSet that adds no new image
returns the untouched default allowed response without invoking any
collaborator (the conclusion holds for every configuration, so no policy
fetch, digest resolution or review is consulted), while Pod handling never
depends on the operation. -/
theorem update_without_new_image_skips_review (cfg : AdmissionConfig) (uid : String)
    (d old : Workload) (resp : AdmissionResponse)
    (hni : hasNewImage d.images old.images = false) :
    handleDeployment cfg ⟨uid, "Deployment", "UPDATE", Except.ok d, Except.ok old⟩
        (defaultAdmissionResponse uid) = Except.ok (defaultAdmissionResponse uid)
    ∧ handleReplicaSet cfg ⟨uid, "ReplicaSet", "UPDATE", Except.ok d, Except.ok old⟩
        (defaultAdmissionResponse uid) = Except.ok (defaultAdmissionResponse uid)
    ∧ (defaultAdmissionResponse uid).allowed = true
    ∧ (∀ op1 op2 : String,
        handlePod cfg ⟨uid, "Pod", op1, Except.ok d, Except.ok old⟩ resp =
          handlePod cfg ⟨uid, "Pod", op2, Except.ok d, Except.ok old⟩ resp) := by
  refine ⟨?_, ?_, rfl, fun op1 op2 => rfl⟩
  · simp [handleDeployment, hni]
  · simp [handleReplicaSet, hni]

/-- A deployment whose update changes no image. -/
def unchangedDeployment : Workload :=
  ⟨"app", "prod", none, ["gcr.io/kritis-project/image@sha256:b5b2"]⟩

/-- Witness for C8: a replica-scaling update (identical image sets) is allowed
without review under an arbitrary configuration. -/
theorem update_without_new_image_skips_review_witness :
    handleDeployment trivialAdmissionConfig
        ⟨"u1", "Deployment", "UPDATE", Except.ok unchangedDeployment,
          Except.ok unchangedDeployment⟩ (defaultAdmissionResponse "u1") =
      Except.ok (defaultAdmissionResponse "u1")
    ∧ handleReplicaSet trivialAdmissionConfig
        ⟨"u1", "ReplicaSet", "UPDATE", Except.ok unchangedDeployment,
          Except.ok unchangedDeployment⟩ (defaultAdmissionResponse "u1") =
      Except.ok (defaultAdmissionResponse "u1")
    ∧ (defaultAdmissionResponse "u1").allowed = true
    ∧ (∀ op1 op2 : String,
        handlePod trivialAdmissionConfig
            ⟨"u1", "Pod", op1, Except.ok unchangedDeployment,
              Except.ok unchangedDeployment⟩ (defaultAdmissionResponse "u1") =
          handlePod trivialAdmissionConfig
            ⟨"u1", "Pod", op2, Except.ok unchangedDeployment,
              Except.ok unchangedDeployment⟩ (defaultAdmissionResponse "u1")) :=
  update_without_new_image_skips_review trivialAdmissionConfig "u1"
    unchangedDeployment unchangedDeployment (defaultAdmissionResponse "u1") (by decide)

/-- Claim C9: for every workload kind and every configuration, an annotation
map containing the breakglass key — with any value whatsoever — makes the
review functions return the response unchanged (so a default allowed
response stays allowed); when the map is absent or lacks the key
(`checkBreakglass` is false), review proceeds to `reviewImages`. -/
theorem breakglass_skips_review (cfg : AdmissionConfig) (w : Workload)
    (resp : AdmissionResponse) :
    (∀ (anns : List (String × String)) (value : String),
      w.annotationMap = some anns → (breakglassKey, value) ∈ anns →
      reviewPod cfg w resp = resp ∧ reviewDeployment cfg w resp = resp ∧
        reviewReplicaSet cfg w resp = resp)
    ∧ (checkBreakglass w.annotationMap = false →
      reviewPod cfg w resp = reviewImages cfg w.images w.namespaceName (some w) resp ∧
      reviewDeployment cfg w resp = reviewImages cfg w.images w.namespaceName none resp ∧
      reviewReplicaSet cfg w resp = reviewImages cfg w.images w.namespaceName none resp)
    ∧ (w.annotationMap = none → checkBreakglass w.annotationMap = false) := by
  refine ⟨?_, ?_, ?_⟩
  · intro anns value hsome hmem
    have hbg : checkBreakglass w.annotationMap = true := by
      rw [hsome]
      refine List.any_eq_true.mpr ⟨(breakglassKey, value), hmem, ?_⟩
      simp
    exact ⟨by simp [reviewPod, hbg], by simp [reviewDeployment, hbg],
           by simp [reviewReplicaSet, hbg]⟩
  · intro hbg
    exact ⟨by simp [reviewPod, hbg], by simp [reviewDeployment, hbg],
           by simp [reviewReplicaSet, hbg]⟩
  · intro hnone
    rw [hnone]
    rfl

/-- A workload carrying the breakglass annotation with an arbitrary value. -/
def bgWorkload : Workload :=
  ⟨"pod-1", "prod", some [(breakglassKey, "oncall escape")], ["gcr.io/p/img"]⟩

/-- Witness for C9: the breakglass-annotated workload is passed through
unreviewed in all three review functions. -/
theorem breakglass_skips_review_witness :
    reviewPod trivialAdmissionConfig bgWorkload (defaultAdmissionResponse "u2") =
      defaultAdmissionResponse "u2"
    ∧ reviewDeployment trivialAdmissionConfig bgWorkload (defaultAdmissionResponse "u2") =
      defaultAdmissionResponse "u2"
    ∧ reviewReplicaSet trivialAdmissionConfig bgWorkload (defaultAdmissionResponse "u2") =
      defaultAdmissionResponse "u2" :=
  (breakglass_skips_review trivialAdmissionConfig bgWorkload
      (defaultAdmissionResponse "u2")).1 [(breakglassKey, "oncall escape")]
    "oncall escape" rfl (by simp)

/-! ## PGP signing-secret fetch (embedded from pkg/kritis/secrets/secrets.go)

Byte strings (`[]byte`) are `List Nat`; Go's `base64.StdEncoding.Decode` is
modelled byte-for-byte: `\r` and `\n` are skipped, the remaining input must
be a sequence of 4-character groups over the standard alphabet, `=` padding
may close the final group (one or two pad characters), and anything else is
a decode error. -/

/-- Value of a standard-base64 alphabet byte, `none` for anything else
(including the pad byte 61, handled separately). -/
def base64Val (b : Nat) : Option Nat :=
  if 65 ≤ b ∧ b ≤ 90 then some (b - 65)
  else if 97 ≤ b ∧ b ≤ 122 then some (b - 97 + 26)
  else if 48 ≤ b ∧ b ≤ 57 then some (b - 48 + 52)
  else if b = 43 then some 62
  else if b = 47 then some 63
  else none

/-- Decode newline-free input in groups of four characters. -/
def base64DecodeQuads : List Nat → Except String (List Nat)
  | [] => Except.ok []
  | a :: b :: c :: d :: rest =>
    (match base64Val a, base64Val b with
     | some va, some vb =>
       if c = 61 then
         (if d = 61 ∧ rest = [] then Except.ok [va * 4 + vb / 16]
          else Except.error "illegal base64 data")
       else
         (match base64Val c with
          | some vc =>
            if d = 61 then
              (if rest = [] then Except.ok [va * 4 + vb / 16, (vb % 16) * 16 + vc / 4]
               else Except.error "illegal base64 data")
            else
              (match base64Val d with
               | some vd =>
                 Except.map
                   (fun tail =>
                     (va * 4 + vb / 16) :: ((vb % 16) * 16 + vc / 4) ::
                       ((vc % 4) * 64 + vd) :: tail)
                   (base64DecodeQuads rest)
               | none => Except.error "illegal base64 data")
          | none => Except.error "illegal base64 data")
     | _, _ => Except.error "illegal base64 data")
  | _ => Except.error "illegal base64 data"

/-- Go's `base64.StdEncoding.Decode`: skip carriage returns and newlines,
then decode in quads. -/
def base64Decode (s : List Nat) : Except String (List Nat) :=
  base64DecodeQuads (s.filter (fun b => !(b == 13) && !(b == 10)))

/-- A kubernetes secret as `Fetch` reads it: its name and its `Data` map. -/
structure KubeSecret where
  name : String
  data : List (String × List Nat)
deriving DecidableEq

/-- Go map lookup on the secret's `Data`. -/
def lookupData (d : List (String × List Nat)) (k : String) : Option (List Nat) :=
  (d.find? (fun kv => kv.fst == k)).map (fun kv => kv.snd)

/-- Modelled from the spec: cryptographic key construction (`NewPgpKey`) is
out of scope and embedded as a record of the arguments the source passes
it — private key, decoded passphrase, public key. -/
structure PgpKey where
  privateKey : List Nat
  passphrase : List Nat
  publicKey : List Nat
deriving DecidableEq

/-- A fetched PGP signing secret: key material plus the secret's name. -/
structure PGPSigningSecret where
  pgpKey : PgpKey
  secretName : String
deriving DecidableEq

/-- Embeds `Fetch`: propagate the secret-store error; require the "public"
and "private" data keys; treat "passphrase" as optional, but when present
base64-decode it (a decode failure aborts the fetch) and use the decoded
bytes as the passphrase. -/
def Fetch (secretResult : Except String KubeSecret) : Except String PGPSigningSecret :=
  match secretResult with
  | Except.error e => Except.error e
  | Except.ok secret =>
    match lookupData secret.data "public" with
    | none => Except.error ("invalid secret " ++ secret.name ++ ". could not find key public")
    | some pub =>
      match lookupData secret.data "private" with
      | none => Except.error ("invalid secret " ++ secret.name ++ ". could not find key private")
      | some priv =>
        match lookupData secret.data "passphrase" with
        | none => Except.ok ⟨⟨priv, [], pub⟩, secret.name⟩
        | some pb =>
          match base64Decode pb with
          | Except.error e => Except.error ("failed to decode base64: " ++ e)
          | Except.ok phrase => Except.ok ⟨⟨priv, phrase, pub⟩, secret.name⟩

/-- Claim C10: `Fetch` errors when the secret lacks a "public" or "private"
data key; an absent "passphrase" key yields an empty passphrase; a present
passphrase must be valid standard base64 — otherwise `Fetch` returns a
decode error and no secret — and the decoded bytes, not the raw value, are
used as the passphrase. -/
theorem fetch_secret_keys_and_passphrase (s : KubeSecret) :
    ((lookupData s.data "public" = none ∨ lookupData s.data "private" = none) →
      ∃ e, Fetch (Except.ok s) = Except.error e)
    ∧ (∀ pub priv, lookupData s.data "public" = some pub →
        lookupData s.data "private" = some priv →
        lookupData s.data "passphrase" = none →
        Fetch (Except.ok s) = Except.ok ⟨⟨priv, [], pub⟩, s.name⟩)
    ∧ (∀ pb e, lookupData s.data "passphrase" = some pb →
        base64Decode pb = Except.error e →
        ∃ e2, Fetch (Except.ok s) = Except.error e2)
    ∧ (∀ pub priv pb dec, lookupData s.data "public" = some pub →
        lookupData s.data "private" = some priv →
        lookupData s.data "passphrase" = some pb →
        base64Decode pb = Except.ok dec →
        Fetch (Except.ok s) = Except.ok ⟨⟨priv, dec, pub⟩, s.name⟩) := by
  refine ⟨?_, ?_, ?_, ?_⟩
  · intro h
    rcases h with h | h
    · exact ⟨"invalid secret " ++ s.name ++ ". could not find key public",
        by simp [Fetch, h]⟩
    · cases hpub : lookupData s.data "public" with
      | none =>
        exact ⟨"invalid secret " ++ s.name ++ ". could not find key public",
          by simp [Fetch, hpub]⟩
      | some pub =>
        exact ⟨"invalid secret " ++ s.name ++ ". could not find key private",
          by simp [Fetch, hpub, h]⟩
  · intro pub priv hpub hpriv hpass
    simp [Fetch, hpub, hpriv, hpass]
  · intro pb e hpass hdec
    cases hpub : lookupData s.data "public" with
    | none =>
      exact ⟨"invalid secret " ++ s.name ++ ". could not find key public",
        by simp [Fetch, hpub]⟩
    | some pub =>
      cases hpriv : lookupData s.data "private" with
      | none =>
        exact ⟨"invalid secret " ++ s.name ++ ". could not find key private",
          by simp [Fetch, hpub, hpriv]⟩
      | some priv =>
        exact ⟨"failed to decode base64: " ++ e,
          by simp [Fetch, hpub, hpriv, hpass, hdec]⟩
  · intro pub priv pb dec hpub hpriv hpass hdec
    simp [Fetch, hpub, hpriv, hpass, hdec]

/-- A well-formed secret whose passphrase is the base64 encoding `"Zm9v"` of
`"foo"`. -/
def sampleSecret : KubeSecret :=
  ⟨"my-secret", [("public", [1, 2]), ("private", [3, 4]),
                 ("passphrase", [90, 109, 57, 118])]⟩

/-- A secret lacking the "public" key. -/
def missingPublicSecret : KubeSecret := ⟨"bad-secret", [("private", [3, 4])]⟩

/-- A secret whose passphrase is not valid base64 (`*` is outside the
alphabet). -/
def badPassphraseSecret : KubeSecret :=
  ⟨"bad-pass", [("public", [1]), ("private", [2]), ("passphrase", [42, 42, 42, 42])]⟩

/-- Witness for C10: the sample secret decodes `"Zm9v"` to the bytes of
`"foo"`, the key-less secret errors, and the invalid passphrase errors. -/
theorem fetch_secret_keys_and_passphrase_witness :
    Fetch (Except.ok sampleSecret) =
      Except.ok ⟨⟨[3, 4], [102, 111, 111], [1, 2]⟩, "my-secret"⟩
    ∧ (∃ e, Fetch (Except.ok missingPublicSecret) = Except.error e)
    ∧ (∃ e2, Fetch (Except.ok badPassphraseSecret) = Except.error e2) :=
  ⟨(fetch_secret_keys_and_passphrase sampleSecret).2.2.2 [1, 2] [3, 4]
      [90, 109, 57, 118] [102, 111, 111] rfl rfl rfl rfl,
   (fetch_secret_keys_and_passphrase missingPublicSecret).1 (Or.inl rfl),
   (fetch_secret_keys_and_passphrase badPassphraseSecret).2.2.1 [42, 42, 42, 42]
     "illegal base64 data" rfl rfl⟩

end Kritis
